import Mathlib

/-!
Verification of the COOL compiler's semantic analyzer and evaluator.

This file is a shallow embedding, in Lean 4, of the Python sources
  src/cool_ast/nodes.py          (AST node shapes)
  src/semantics/type_environment.py  (class TypeChecker)
  src/interpreter/evaluator.py   (classes Environment, COOLObject, Evaluator)
together with theorems settling the frozen claims C1..C10.

Modelling conventions:
* Python dicts become association lists `List (String × α)`; assignment
  `d[k] = v` replaces the value at the first occurrence of `k` (keeping its
  position, as CPython dicts do) or appends a fresh entry; lookup takes the
  first occurrence.
* Python `while` loops over parent chains become fuel-indexed recursive
  functions.  The fuel is always taken large enough that, on the inputs the
  theorems speak about, the Lean function computes exactly what the Python
  loop computes; fuel exhaustion models divergence / RecursionError.
* Python exceptions become the `Except String` error channel; the mutable
  `self.errors` list and `self.local_vars` dict of the checker are threaded
  as explicit state.  Side effects performed before an exception is raised
  persist in the returned state, as they do in Python.
* Machine-relevant Python facts carried over verbatim:
  - `class BinaryOp` (nodes.py:279) stores the operator in the attribute
    `operator`; both `TypeChecker` and `Evaluator` read `expr.op`, which
    raises `AttributeError` at that point.
  - `class StaticDispatch` (nodes.py:133) derives from `ASTNode`, not from
    `Dispatch`, so `isinstance(expr, Dispatch)` is `False` for it and both
    consumers treat it as an unknown expression shape.
  - `eval_expr` (evaluator.py:110-112) begins with
    `from cool_ast.nodes import ... UnaryOp ...`; `nodes.py` defines no
    `UnaryOp`, so in CPython every single call raises `ImportError` there,
    before the expression is examined: the whole per-construct body of
    eval_expr (lines 114-239) is dead code, and every evaluation fails with
    ImportError.  Only the steps of `Evaluator.eval` that precede its
    `eval_expr` call are live; they are modelled in detail below.
-/

/-- nodes.py Formal: a method formal parameter (name, declared type). -/
structure Formal where
  name : String
  type : String
deriving Repr, DecidableEq

/-- Expression nodes of nodes.py.  `Branch(name, type, expr)` of a case arm
and the normalized let binding triples `(name, type, init)` are inlined as
tuples, exactly the shapes the Python consumers destructure. -/
inductive Expr where
  | intConst (value : Int)
  | strConst (value : String)
  | boolConst (value : Bool)
  | ident (name : String)
  | assign (name : String) (expr : Expr)
  | dispatch (obj : Option Expr) (method : String) (args : List Expr)
  | staticDispatch (obj : Expr) (type : String) (method : String) (args : List Expr)
  | conditional (predicate thenExpr elseExpr : Expr)
  | letE (bindings : List (String × String × Option Expr)) (body : Expr)
  | block (expressions : List Expr)
  | caseE (scrut : Expr) (cases : List (String × String × Expr))
  | newE (type : String)
  | notE (expr : Expr)
  | negate (expr : Expr)
  | isVoid (expr : Expr)
  | binaryOp (operator : String) (left right : Expr)
  | selfE
  | loop (condition body : Expr)
deriving Repr

/-- nodes.py features: `Method(name, formals, return_type, body)` and
`Attribute(name, type, init)`. -/
inductive Feature where
  | method (name : String) (formals : List Formal) (returnType : String) (body : Expr)
  | attribute (name : String) (type : String) (init : Option Expr)
deriving Repr

/-- nodes.py Class: name, parent (None for a root class), ordered features. -/
structure CClass where
  name : String
  parent : Option String
  features : List Feature
deriving Repr

/-- nodes.py Program: ordered class list. -/
structure Program where
  classes : List CClass
deriving Repr

/-- Dict lookup: value at the first occurrence of the key. -/
def dget (l : List (String × α)) (k : String) : Option α :=
  (l.find? (fun p => p.1 == k)).map (·.2)

/-- Dict membership test (`k in d`). -/
def dmem (l : List (String × α)) (k : String) : Bool :=
  (dget l k).isSome

/-- Dict assignment `d[k] = v`: replace the value at the first occurrence of
`k` (CPython keeps the key's insertion position) or append a fresh entry. -/
def dset (l : List (String × α)) (k : String) (v : α) : List (String × α) :=
  match l with
  | [] => [(k, v)]
  | (k', v') :: rest => if k' == k then (k, v) :: rest else (k', v') :: dset rest k v

/-- One entry of `TypeChecker.class_table`
(type_environment.py:5, 54-75, 124-148): parent name (None only for the
root), attribute dict, method dict mapping a method name to its
(named formal types, return type) pair. -/
structure ClassInfo where
  parent : Option String
  attributes : List (String × String)
  methods : List (String × (List (String × String) × String))
deriving Repr

/-- The checker's class table: a dict from class name to descriptor. -/
abbrev ClassTable := List (String × ClassInfo)

/-- TypeChecker.basic_types (type_environment.py:54-73), in dict insertion
order, used to pre-seed `class_table` (line 75). -/
def basic_types : ClassTable :=
  [ ("Object", ⟨none, [],
      [("abort", ([], "Object")), ("type_name", ([], "String")),
       ("copy", ([], "SELF_TYPE"))]⟩),
    ("IO", ⟨some "Object", [],
      [("out_string", ([("x", "String")], "IO")),
       ("out_int", ([("x", "Int")], "IO")),
       ("in_string", ([], "String")), ("in_int", ([], "Int"))]⟩),
    ("Int", ⟨some "Object", [], []⟩),
    ("String", ⟨some "Object", [],
      [("length", ([], "Int")),
       ("concat", ([("s", "String")], "String")),
       ("substr", ([("i", "Int"), ("l", "Int")], "String"))]⟩),
    ("Bool", ⟨some "Object", [], []⟩) ]

/-- First while loop of `TypeChecker.join_types` (type_environment.py:426-432):
collect `current`'s ancestor chain, itself outward.  Each iteration appends
`current`, breaks if it is not a table key, otherwise steps to its parent;
a `None` current (falsy) ends the loop.  Fuel exhaustion models divergence
on a cyclic table. -/
def whileChain (ct : ClassTable) : Nat → Option String → List String
  | _, none => []
  | 0, some _ => []
  | fuel + 1, some c =>
    match dget ct c with
    | none => [c]
    | some info => c :: whileChain ct fuel info.parent

/-- Second while loop of `TypeChecker.join_types`
(type_environment.py:434-443): walk `current`'s chain until a member of
`ancestors1` is found; default to "Object" when the walk ends. -/
def whileJoin (ct : ClassTable) (ancestors1 : List String) :
    Nat → Option String → String
  | _, none => "Object"
  | 0, some _ => "Object"
  | fuel + 1, some c =>
    if c ∈ ancestors1 then c
    else
      match dget ct c with
      | none => "Object"
      | some info => whileJoin ct ancestors1 fuel info.parent

/-- TypeChecker.join_types (type_environment.py:414-443).  `cc` is
`self.current_class`, `ct` is `self.class_table`.  The fuel
`ct.length + 1` dominates every ancestor chain of a validated table, so on
such tables this equals the unbounded Python loops. -/
def join_types (ct : ClassTable) (cc : String) (type1 type2 : String) : String :=
  if type1 = type2 then type1
  else
    let t1 := if type1 = "SELF_TYPE" then cc else type1
    let t2 := if type2 = "SELF_TYPE" then cc else type2
    let ancestors1 := whileChain ct (ct.length + 1) (some t1)
    whileJoin ct ancestors1 (ct.length + 1) (some t2)

/-- The key list of a class table (the dict's keys, in order). -/
def tableKeys (ct : ClassTable) : List String := ct.map Prod.fst

/-- A validated class hierarchy, as claims C7/C8 presuppose one: a depth
witness certifies that every class's single-parent chain is acyclic and
terminates at the root "Object" (the only parentless class), all within the
finite table.  `depth` drops by one from child to parent, which forces both
acyclicity and the termination of every parent chain; the bound
`depth ≤ ct.length` is automatic for such a finite table and makes the
table-sized fuel of the embedded loops provably sufficient. -/
structure ValidHierarchy (ct : ClassTable) (depth : String → Nat) : Prop where
  parent_mem : ∀ p ∈ ct, ∀ q, p.2.parent = some q → (dget ct q).isSome
  depth_step : ∀ p ∈ ct, ∀ q, p.2.parent = some q → depth p.1 = depth q + 1
  root_is_object : ∀ p ∈ ct, p.2.parent = none → p.1 = "Object"
  depth_bound : ∀ p ∈ ct, depth p.1 ≤ ct.length

/-- A successful dict lookup returns an entry of the table. -/
theorem dget_mem {α : Type} {ct : List (String × α)} {c : String} {info : α}
    (h : dget ct c = some info) : (c, info) ∈ ct := by
  unfold dget at h
  cases hf : ct.find? (fun p => p.1 == c) with
  | none => rw [hf] at h; exact absurd h (by simp)
  | some p =>
    rw [hf] at h
    simp only [Option.map] at h
    have hm : p ∈ ct := List.mem_of_find?_eq_some hf
    have h1 : p.1 = c := by simpa using List.find?_some hf
    have : p = (c, info) := by
      cases p; simp_all
    rwa [this] at hm

section Hierarchy

variable {ct : ClassTable} {depth : String → Nat}

/-- The ancestor chain computed by join_types' first loop at its actual fuel. -/
def chainOf (ct : ClassTable) (c : String) : List String :=
  whileChain ct (ct.length + 1) (some c)

theorem whileChain_fuel (V : ValidHierarchy ct depth) :
    ∀ n c f₁ f₂, depth c = n → (dget ct c).isSome → depth c < f₁ → depth c < f₂ →
      whileChain ct f₁ (some c) = whileChain ct f₂ (some c) := by
  intro n
  induction n using Nat.strong_induction_on with
  | _ n ih =>
    intro c f₁ f₂ hd hc h1 h2
    obtain ⟨info, hinfo⟩ := Option.isSome_iff_exists.mp hc
    match f₁, f₂ with
    | 0, _ => omega
    | _ + 1, 0 => omega
    | g₁ + 1, g₂ + 1 =>
      simp only [whileChain, hinfo]
      cases hp : info.parent with
      | none => simp [whileChain]
      | some p =>
        have hpm := V.parent_mem (c, info) (dget_mem hinfo) p hp
        have hps : depth c = depth p + 1 := by
          simpa using V.depth_step (c, info) (dget_mem hinfo) p hp
        have : whileChain ct g₁ (some p) = whileChain ct g₂ (some p) :=
          ih (depth p) (by omega) p g₁ g₂ rfl hpm (by omega) (by omega)
        rw [this]

theorem chainOf_eq_root (c : String) {info : ClassInfo}
    (hinfo : dget ct c = some info) (hp : info.parent = none) :
    chainOf ct c = [c] := by
  simp [chainOf, whileChain, hinfo, hp]

theorem chainOf_eq_step (V : ValidHierarchy ct depth) (c : String) {info : ClassInfo}
    {p : String} (hinfo : dget ct c = some info) (hp : info.parent = some p) :
    chainOf ct c = c :: chainOf ct p := by
  have hb : depth c ≤ ct.length := by
    simpa using V.depth_bound (c, info) (dget_mem hinfo)
  have hpm := V.parent_mem (c, info) (dget_mem hinfo) p hp
  have hps : depth c = depth p + 1 := by
    simpa using V.depth_step (c, info) (dget_mem hinfo) p hp
  have hfuel : whileChain ct ct.length (some p) = whileChain ct (ct.length + 1) (some p) :=
    whileChain_fuel V (depth p) p ct.length (ct.length + 1) rfl hpm (by omega) (by omega)
  conv_lhs => simp only [chainOf, whileChain, hinfo, hp]
  rw [hfuel]
  rfl

theorem chainOf_head (V : ValidHierarchy ct depth) (c : String)
    (hc : (dget ct c).isSome) : ∃ t, chainOf ct c = c :: t := by
  obtain ⟨info, hinfo⟩ := Option.isSome_iff_exists.mp hc
  cases hp : info.parent with
  | none => exact ⟨[], chainOf_eq_root c hinfo hp⟩
  | some p => exact ⟨chainOf ct p, chainOf_eq_step V c hinfo hp⟩

theorem chainOf_suffix (V : ValidHierarchy ct depth) :
    ∀ n c, depth c = n → (dget ct c).isSome →
      ∀ x ∈ chainOf ct c, (dget ct x).isSome ∧ chainOf ct x <:+ chainOf ct c := by
  intro n
  induction n using Nat.strong_induction_on with
  | _ n ih =>
    intro c hd hc x hx
    obtain ⟨info, hinfo⟩ := Option.isSome_iff_exists.mp hc
    cases hp : info.parent with
    | none =>
      rw [chainOf_eq_root c hinfo hp] at hx ⊢
      obtain rfl : x = c := by simpa using hx
      exact ⟨hc, by rw [chainOf_eq_root x hinfo hp]⟩
    | some p =>
      have hstep := chainOf_eq_step V c hinfo hp
      have hpm := V.parent_mem (c, info) (dget_mem hinfo) p hp
      have hps : depth c = depth p + 1 := by
        simpa using V.depth_step (c, info) (dget_mem hinfo) p hp
      rw [hstep] at hx
      rcases List.mem_cons.mp hx with hxc | hxp
      · subst hxc
        exact ⟨hc, List.suffix_refl _⟩
      · obtain ⟨hxm, hxs⟩ := ih (depth p) (by omega) p rfl hpm x hxp
        refine ⟨hxm, hxs.trans ?_⟩
        rw [hstep]
        exact List.suffix_cons c (chainOf ct p)

theorem object_mem_chainOf (V : ValidHierarchy ct depth) :
    ∀ n c, depth c = n → (dget ct c).isSome → "Object" ∈ chainOf ct c := by
  intro n
  induction n using Nat.strong_induction_on with
  | _ n ih =>
    intro c hd hc
    obtain ⟨info, hinfo⟩ := Option.isSome_iff_exists.mp hc
    cases hp : info.parent with
    | none =>
      have hobj : c = "Object" := by
        simpa using V.root_is_object (c, info) (dget_mem hinfo) hp
      rw [chainOf_eq_root c hinfo hp, hobj]
      simp
    | some p =>
      have hpm := V.parent_mem (c, info) (dget_mem hinfo) p hp
      have hps : depth c = depth p + 1 := by
        simpa using V.depth_step (c, info) (dget_mem hinfo) p hp
      rw [chainOf_eq_step V c hinfo hp]
      exact List.mem_cons_of_mem c (ih (depth p) (by omega) p rfl hpm)

end Hierarchy

section Hierarchy2

variable {ct : ClassTable} {depth : String → Nat}

/-- Characterization of join_types' second loop on a validated table: when
some member of `c`'s ancestor chain lies in `ancestors1`, the walk stops at
a member `m` of `ancestors1`, the part of the chain before `m` is disjoint
from `ancestors1`, and the rest of the chain is exactly `m`'s own chain. -/
theorem whileJoin_spec (V : ValidHierarchy ct depth) (anc1 : List String) :
    ∀ n c f, depth c = n → (dget ct c).isSome → depth c < f →
      (∃ x, x ∈ chainOf ct c ∧ x ∈ anc1) →
      whileJoin ct anc1 f (some c) ∈ anc1 ∧
      ∃ pre, chainOf ct c = pre ++ chainOf ct (whileJoin ct anc1 f (some c)) ∧
        ∀ y ∈ pre, y ∉ anc1 := by
  intro n
  induction n using Nat.strong_induction_on with
  | _ n ih =>
    intro c f hd hc hf hex
    obtain ⟨info, hinfo⟩ := Option.isSome_iff_exists.mp hc
    match f with
    | 0 => omega
    | g + 1 =>
      by_cases hmem : c ∈ anc1
      · have hres : whileJoin ct anc1 (g + 1) (some c) = c := by
          simp [whileJoin, hmem]
        rw [hres]
        exact ⟨hmem, [], by simp, by simp⟩
      · have hres : whileJoin ct anc1 (g + 1) (some c) =
            whileJoin ct anc1 g info.parent := by
          simp [whileJoin, hmem, hinfo]
        cases hp : info.parent with
        | none =>
          exfalso
          obtain ⟨x, hx1, hx2⟩ := hex
          rw [chainOf_eq_root c hinfo hp] at hx1
          obtain rfl : x = c := by simpa using hx1
          exact hmem hx2
        | some p =>
          have hpm := V.parent_mem (c, info) (dget_mem hinfo) p hp
          have hps : depth c = depth p + 1 := by
            simpa using V.depth_step (c, info) (dget_mem hinfo) p hp
          have hstep := chainOf_eq_step V c hinfo hp
          have hex' : ∃ x, x ∈ chainOf ct p ∧ x ∈ anc1 := by
            obtain ⟨x, hx1, hx2⟩ := hex
            rw [hstep] at hx1
            rcases List.mem_cons.mp hx1 with hxc | hxp
            · exact absurd (hxc ▸ hx2) hmem
            · exact ⟨x, hxp, hx2⟩
          rw [hp] at hres
          obtain ⟨hm1, pre, hpre, hclean⟩ :=
            ih (depth p) (by omega) p g rfl hpm (by omega) hex'
          rw [hres]
          refine ⟨hm1, c :: pre, ?_, ?_⟩
          · rw [hstep, hpre]
            rfl
          · intro y hy
            rcases List.mem_cons.mp hy with rfl | hyp
            · exact hmem
            · exact hclean y hyp

/-- The walk rooted at one class against the chain of another: the abstract
form of `join_types` on two distinct table classes. -/
def joinWalk (ct : ClassTable) (a b : String) : String :=
  whileJoin ct (chainOf ct a) (ct.length + 1) (some b)

theorem joinWalk_comm (V : ValidHierarchy ct depth) (a b : String)
    (ha : (dget ct a).isSome) (hb : (dget ct b).isSome) :
    joinWalk ct a b = joinWalk ct b a := by
  have hobja := object_mem_chainOf V (depth a) a rfl ha
  have hobjb := object_mem_chainOf V (depth b) b rfl hb
  have hba : depth b ≤ ct.length := by
    obtain ⟨info, hinfo⟩ := Option.isSome_iff_exists.mp hb
    simpa using V.depth_bound (b, info) (dget_mem hinfo)
  have haa : depth a ≤ ct.length := by
    obtain ⟨info, hinfo⟩ := Option.isSome_iff_exists.mp ha
    simpa using V.depth_bound (a, info) (dget_mem hinfo)
  obtain ⟨hm1A, pre1, hpre1, hclean1⟩ :=
    whileJoin_spec V (chainOf ct a) (depth b) b (ct.length + 1) rfl hb (by omega)
      ⟨"Object", hobjb, hobja⟩
  obtain ⟨hm2B, pre2, hpre2, hclean2⟩ :=
    whileJoin_spec V (chainOf ct b) (depth a) a (ct.length + 1) rfl ha (by omega)
      ⟨"Object", hobja, hobjb⟩
  set m1 := whileJoin ct (chainOf ct a) (ct.length + 1) (some b) with hm1def
  set m2 := whileJoin ct (chainOf ct b) (ct.length + 1) (some a) with hm2def
  -- m1 lies on both chains
  have hm1keys : (dget ct m1).isSome ∧ chainOf ct m1 <:+ chainOf ct a :=
    chainOf_suffix V (depth a) a rfl ha m1 hm1A
  have hm2keys : (dget ct m2).isSome ∧ chainOf ct m2 <:+ chainOf ct b :=
    chainOf_suffix V (depth b) b rfl hb m2 hm2B
  obtain ⟨t1, ht1⟩ := chainOf_head V m1 hm1keys.1
  obtain ⟨t2, ht2⟩ := chainOf_head V m2 hm2keys.1
  have hm1chain : m1 ∈ chainOf ct m1 := by rw [ht1]; simp
  have hm2chain : m2 ∈ chainOf ct m2 := by rw [ht2]; simp
  have hm1B : m1 ∈ chainOf ct b := by
    rw [hpre1]
    exact List.mem_append_right pre1 hm1chain
  have hm2A : m2 ∈ chainOf ct a := by
    rw [hpre2]
    exact List.mem_append_right pre2 hm2chain
  -- m1 avoids pre2, hence sits on m2's chain; and symmetrically
  have hm1m2 : m1 ∈ chainOf ct m2 := by
    have := hpre2 ▸ hm1A
    rcases List.mem_append.mp this with hL | hR
    · exact absurd hm1A (by intro _; exact (hclean2 m1 hL) (hpre1 ▸ List.mem_append_right pre1 hm1chain))
    · exact hR
  have hm2m1 : m2 ∈ chainOf ct m1 := by
    have := hpre1 ▸ hm2B
    rcases List.mem_append.mp this with hL | hR
    · exact absurd hm2B (by intro _; exact (hclean1 m2 hL) (hpre2 ▸ List.mem_append_right pre2 hm2chain))
    · exact hR
  have hs12 : chainOf ct m1 <:+ chainOf ct m2 :=
    (chainOf_suffix V (depth m2) m2 rfl hm2keys.1 m1 hm1m2).2
  have hs21 : chainOf ct m2 <:+ chainOf ct m1 :=
    (chainOf_suffix V (depth m1) m1 rfl hm1keys.1 m2 hm2m1).2
  have hlen : (chainOf ct m1).length = (chainOf ct m2).length :=
    Nat.le_antisymm hs12.length_le hs21.length_le
  have hchains : chainOf ct m1 = chainOf ct m2 := hs12.eq_of_length hlen
  rw [ht1, ht2] at hchains
  exact (List.cons.injEq _ _ _ _ ▸ hchains).1

end Hierarchy2

/-- C7 (claim theorem).  Over every validated (acyclic, root-terminated)
class hierarchy — one admitting a depth witness, with the pseudo-type
SELF_TYPE never stored as a key, as the data-model invariant states — and
for all class names A and B present in the class table:
join_types A B = join_types B A, join_types A A = A, and
join_types A Object = Object, for any value of `current_class`. -/
theorem join_types_comm_idem_root (ct : ClassTable) (depth : String → Nat)
    (cc A B : String) (V : ValidHierarchy ct depth)
    (hst : dget ct "SELF_TYPE" = none)
    (hA : (dget ct A).isSome) (hB : (dget ct B).isSome) :
    join_types ct cc A B = join_types ct cc B A ∧
    join_types ct cc A A = A ∧
    join_types ct cc A "Object" = "Object" := by
  have hAst : A ≠ "SELF_TYPE" := by
    intro h
    rw [h, hst] at hA
    simp at hA
  have hBst : B ≠ "SELF_TYPE" := by
    intro h
    rw [h, hst] at hB
    simp at hB
  refine ⟨?_, by simp [join_types], ?_⟩
  · by_cases hAB : A = B
    · subst hAB; rfl
    · have h1 : join_types ct cc A B = joinWalk ct A B := by
        simp [join_types, hAB, hAst, hBst, joinWalk, chainOf]
      have h2 : join_types ct cc B A = joinWalk ct B A := by
        simp [join_types, Ne.symm hAB, hAst, hBst, joinWalk, chainOf]
      rw [h1, h2, joinWalk_comm V A B hA hB]
  · by_cases hAO : A = "Object"
    · subst hAO; simp [join_types]
    · have hobj : "Object" ∈ whileChain ct (ct.length + 1) (some A) :=
        object_mem_chainOf V (depth A) A rfl hA
      have hOst : "Object" ≠ "SELF_TYPE" := by decide
      simp [join_types, hAO, hAst, hOst, whileJoin, hobj]

/-- Depth witness for the pre-seeded table of basic types. -/
def basicDepth (c : String) : Nat := if c = "Object" then 0 else 1

theorem basic_types_valid : ValidHierarchy basic_types basicDepth := by
  refine ⟨?_, ?_, ?_, ?_⟩ <;>
    · intro p hp
      simp only [basic_types, List.mem_cons, List.not_mem_nil, or_false] at hp
      rcases hp with rfl | rfl | rfl | rfl | rfl <;>
        simp only [basicDepth, Option.some.injEq, forall_eq] <;>
        first
        | decide
        | (intro q hq; cases hq; decide)

/-- Witness for C7: the properties instantiated at the concrete pre-seeded
basic-type table, at the classes Int and String. -/
theorem join_types_comm_idem_root_witness :
    join_types basic_types "Main" "Int" "String" =
      join_types basic_types "Main" "String" "Int" ∧
    join_types basic_types "Main" "Int" "Int" = "Int" ∧
    join_types basic_types "Main" "Int" "Object" = "Object" :=
  join_types_comm_idem_root basic_types basicDepth "Main" "Int" "String"
    basic_types_valid (by rfl) (by rfl) (by rfl)

/-- Inner helper has_cycle of TypeChecker.check_inheritance_cycles
(type_environment.py:152-172): walk the parent chain with a per-class
visited set, reporting a cycle on a revisit and "not defined" on a missing
parent.  Returns the boolean result paired with the diagnostics appended to
self.errors.  The Python recursion always stops within one step per table
key plus one, so the table-sized fuel used below never runs out; the fuel-0
value is unreachable. -/
def has_cycle (ct : ClassTable) : Nat → String → List String → Bool × List String
  | 0, _, _ => (true, [])
  | fuel + 1, c, visited =>
    if c = "Object" then (false, [])
    else if c ∈ visited then
      (true, [s!"Inheritance cycle detected involving class {c}"])
    else
      match dget ct c with
      | none => (true, [s!"Class {c} not defined"])
      | some info =>
        match info.parent with
        | none => (false, [])
        | some p => has_cycle ct fuel p (c :: visited)

/-- Iteration of check_inheritance_cycles over the table's keys
(type_environment.py:174-177): stop with failure at the first key whose
walk reports a cycle, with the walk's diagnostics appended. -/
def cyclesLoop (ct : ClassTable) : List (String × ClassInfo) → Bool × List String
  | [] => (true, [])
  | (name, _) :: rest =>
    let r := has_cycle ct (ct.length + 2) name []
    if r.1 then (false, r.2)
    else
      let r' := cyclesLoop ct rest
      (r'.1, r.2 ++ r'.2)

/-- TypeChecker.check_inheritance_cycles (type_environment.py:150-177). -/
def check_inheritance_cycles (ct : ClassTable) : Bool × List String :=
  cyclesLoop ct ct

/-- A table entry's key always lands a successful dict lookup. -/
theorem mem_dget_isSome {α : Type} {ct : List (String × α)} {k : String} {v : α}
    (h : (k, v) ∈ ct) : (dget ct k).isSome := by
  have : (ct.find? (fun p => p.1 == k)).isSome := by
    rw [List.find?_isSome]
    exact ⟨(k, v), h, by simp⟩
  simpa [dget] using this

theorem has_cycle_valid {ct : ClassTable} {depth : String → Nat}
    (V : ValidHierarchy ct depth) :
    ∀ n c f visited, depth c = n → (dget ct c).isSome → depth c < f →
      (∀ v ∈ visited, depth c < depth v) →
      has_cycle ct f c visited = (false, []) := by
  intro n
  induction n using Nat.strong_induction_on with
  | _ n ih =>
    intro c f visited hd hc hf hvis
    obtain ⟨info, hinfo⟩ := Option.isSome_iff_exists.mp hc
    match f with
    | 0 => omega
    | g + 1 =>
      by_cases hobj : c = "Object"
      · simp [has_cycle, hobj]
      · have hnv : c ∉ visited := fun h => absurd (hvis c h) (by omega)
        cases hp : info.parent with
        | none => simp [has_cycle, hobj, hnv, hinfo, hp]
        | some p =>
          have hpm := V.parent_mem (c, info) (dget_mem hinfo) p hp
          have hps : depth c = depth p + 1 := by
            simpa using V.depth_step (c, info) (dget_mem hinfo) p hp
          have hrec : has_cycle ct g p (c :: visited) = (false, []) := by
            refine ih (depth p) (by omega) p g (c :: visited) rfl hpm (by omega) ?_
            intro v hv
            rcases List.mem_cons.mp hv with rfl | hvv
            · omega
            · have := hvis v hvv
              omega
          simp [has_cycle, hobj, hnv, hinfo, hp, hrec]

theorem cyclesLoop_valid {ct : ClassTable} {depth : String → Nat}
    (V : ValidHierarchy ct depth) :
    ∀ l : List (String × ClassInfo), (∀ e ∈ l, e ∈ ct) →
      cyclesLoop ct l = (true, []) := by
  intro l
  induction l with
  | nil => intro _; rfl
  | cons e rest ihr =>
    intro hsub
    obtain ⟨name, info⟩ := e
    have hmem : (name, info) ∈ ct := hsub (name, info) (by simp)
    have hc : (dget ct name).isSome := mem_dget_isSome hmem
    have hb : depth name ≤ ct.length := by
      simpa using V.depth_bound (name, info) hmem
    have hz : has_cycle ct (ct.length + 2) name [] = (false, []) :=
      has_cycle_valid V (depth name) name (ct.length + 2) [] rfl hc (by omega)
        (by intro v hv; simp at hv)
    have hrest : cyclesLoop ct rest = (true, []) :=
      ihr (fun e he => hsub e (List.mem_cons_of_mem _ he))
    simp [cyclesLoop, hz, hrest]

/-- The class table of a program whose user classes are exactly
`class A inherits B` and `class B inherits A`, after build_class_table has
seeded the basic types and added both user classes. -/
def cyclicAB : ClassTable :=
  basic_types ++ [("A", ⟨some "B", [], []⟩), ("B", ⟨some "A", [], []⟩)]

/-- C8 (claim theorem).  check_inheritance_cycles reports an
inheritance-cycle diagnostic and returns failure on the table whose class
A's parent is B and whose class B's parent is A, and it reports no cycle
(success, no diagnostics) on any class table in which every class's
single-parent chain terminates at the root Object, i.e. on any validated
hierarchy. -/
theorem check_inheritance_cycles_props :
    check_inheritance_cycles cyclicAB =
      (false, ["Inheritance cycle detected involving class A"]) ∧
    (∀ (ct : ClassTable) (depth : String → Nat), ValidHierarchy ct depth →
      check_inheritance_cycles ct = (true, [])) := by
  constructor
  · rfl
  · intro ct depth V
    exact cyclesLoop_valid V ct (fun e he => he)

/-- Witness for C8: the no-cycle half instantiated at the concrete
pre-seeded basic-type table, together with the concrete cyclic half. -/
theorem check_inheritance_cycles_props_witness :
    check_inheritance_cycles cyclicAB =
      (false, ["Inheritance cycle detected involving class A"]) ∧
    check_inheritance_cycles basic_types = (true, []) :=
  ⟨check_inheritance_cycles_props.1,
   check_inheritance_cycles_props.2 basic_types basicDepth basic_types_valid⟩

/-- Walk of TypeChecker.is_subtype (type_environment.py:405-412): step the
sub-chain upward until `sup` is found (true), a missing class is hit
(false), or the chain ends (false). -/
def subWalk (ct : ClassTable) (sup : String) : Nat → Option String → Bool
  | _, none => false
  | 0, some _ => false
  | fuel + 1, some c =>
    if c = sup then true
    else
      match dget ct c with
      | none => false
      | some info => subWalk ct sup fuel info.parent

/-- TypeChecker.is_subtype (type_environment.py:397-412). -/
def is_subtype (ct : ClassTable) (cc : String) (subType supType : String) : Bool :=
  if subType = "SELF_TYPE" ∧ supType = "SELF_TYPE" then true
  else
    let sub := if subType = "SELF_TYPE" then cc else subType
    let sup := if supType = "SELF_TYPE" then cc else supType
    subWalk ct sup (ct.length + 1) (some sub)

/-- The mutable checker state threaded through get_expr_type: the
local-variable dict `self.local_vars` and the diagnostics list
`self.errors`.  The class table and `self.current_class` never change
during an expression check and are passed as plain arguments. -/
structure CheckSt where
  locals : List (String × String)
  errors : List String
deriving Repr

/-- Appends one diagnostic (self.errors.append). -/
def addErr (st : CheckSt) (msg : String) : CheckSt :=
  { st with errors := st.errors ++ [msg] }

mutual

/-- TypeChecker.get_expr_type (type_environment.py:223-267) with its helpers
check_dispatch/check_conditional/check_let/check_case inlined via the
mutually defined loop functions below.  Conventions:
* the result is the inferred type, or `.error` for a propagating Python
  exception; diagnostics appended before an exception persist in the state;
* the `binaryOp` arm models type_environment.py:240: the debug print reads
  `expr.op`, an attribute `BinaryOp` does not define (nodes.py:279 stores
  `operator`), so `AttributeError` is raised before `check_binary_op` runs,
  making `check_binary_op` (269-291) dead code with no counterpart here;
* `staticDispatch`, `assign`, `notE`, `negate` and `loop` match no
  `isinstance` arm of get_expr_type and fall through to line 266's
  "Unknown expression type" diagnostic (the message models
  `{type(expr)}` by the bare class name);
* an empty `block` or empty `caseE` hits Python's `expressions[-1]` /
  `branch_types[0]` on an empty list: IndexError;
* fuel models the native call stack; exhaustion is RecursionError. -/
def get_expr_type (ct : ClassTable) (cc : String) :
    Nat → Expr → CheckSt → Except String String × CheckSt
  | 0, _, st => (.error "RecursionError", st)
  | f + 1, e, st =>
    match e with
    | .intConst _ => (.ok "Int", st)
    | .strConst _ => (.ok "String", st)
    | .boolConst _ => (.ok "Bool", st)
    | .ident name =>
      match dget st.locals name with
      | some t => (.ok t, st)
      | none =>
        match dget ct cc with
        | none => (.error s!"KeyError: {cc}", st)
        | some info =>
          match dget info.attributes name with
          | some t => (.ok t, st)
          | none => (.ok "Object", addErr st s!"Undefined identifier {name}")
    | .binaryOp _ _ _ =>
      (.error "AttributeError: BinaryOp object has no attribute op", st)
    | .dispatch obj m args =>
      let objRes : Except String String × CheckSt :=
        match obj with
        | none => (.ok cc, st)
        | some o => get_expr_type ct cc f o st
      match objRes with
      | (.error err, st') => (.error err, st')
      | (.ok t0, st') =>
        let objType := if t0 = "SELF_TYPE" then cc else t0
        dispatch_walk ct cc f m args (some objType) objType st'
    | .staticDispatch _ _ _ _ =>
      (.ok "Object", addErr st "Unknown expression type: StaticDispatch")
    | .conditional pred thenE elseE =>
      match get_expr_type ct cc f pred st with
      | (.error err, st') => (.error err, st')
      | (.ok pt, st') =>
        if pt ≠ "Bool" then
          (.ok "Object", addErr st' "If condition must be of type Bool")
        else
          match get_expr_type ct cc f thenE st' with
          | (.error err, st2) => (.error err, st2)
          | (.ok tt, st2) =>
            match get_expr_type ct cc f elseE st2 with
            | (.error err, st3) => (.error err, st3)
            | (.ok et, st3) => (.ok (join_types ct cc tt et), st3)
    | .letE bindings body =>
      let old := st.locals
      match let_loop ct cc f bindings st with
      | (.error err, st') => (.error err, st')
      | (.ok false, st') => (.ok "Object", st')
      | (.ok true, st') =>
        match get_expr_type ct cc f body st' with
        | (.error err, st2) => (.error err, st2)
        | (.ok bt, st2) => (.ok bt, { st2 with locals := old })
    | .newE t =>
      if ¬ dmem ct t ∧ t ≠ "SELF_TYPE" then
        (.ok "Object", addErr st s!"Cannot instantiate undefined class {t}")
      else (.ok t, st)
    | .isVoid inner =>
      match get_expr_type ct cc f inner st with
      | (.error err, st') => (.error err, st')
      | (.ok _, st') => (.ok "Bool", st')
    | .block exprs =>
      match exprs with
      | [] => (.error "IndexError: list index out of range", st)
      | _ :: _ => block_loop ct cc f exprs st
    | .caseE scrut cases =>
      match get_expr_type ct cc f scrut st with
      | (.error err, st') => (.error err, st')
      | (.ok _, st') =>
        match case_loop ct cc f cases [] st' with
        | (.error err, st2) => (.error err, st2)
        | (.ok none, st2) => (.ok "Object", st2)
        | (.ok (some bts), st2) =>
          match bts with
          | [] => (.error "IndexError: list index out of range", st2)
          | b0 :: brest => (.ok (brest.foldl (join_types ct cc) b0), st2)
    | .selfE => (.ok "SELF_TYPE", st)
    | .assign _ _ => (.ok "Object", addErr st "Unknown expression type: Assign")
    | .notE _ => (.ok "Object", addErr st "Unknown expression type: Not")
    | .negate _ => (.ok "Object", addErr st "Unknown expression type: Negate")
    | .loop _ _ => (.ok "Object", addErr st "Unknown expression type: Loop")

/-- While loop of TypeChecker.check_dispatch (type_environment.py:300-334):
walk the receiver type's parent chain for the first class declaring the
method, then check arity and argument types; exits map to the diagnostics
of lines 304, 313, 323, 333. -/
def dispatch_walk (ct : ClassTable) (cc : String) :
    Nat → String → List Expr → Option String → String → CheckSt →
      Except String String × CheckSt
  | 0, _, _, _, _, st => (.error "RecursionError", st)
  | _ + 1, m, _, none, objType, st =>
    (.ok "Object",
      addErr st s!"Method {m} not found in class {objType} or its ancestors")
  | f + 1, m, args, some c, objType, st =>
    match dget ct c with
    | none => (.ok "Object", addErr st s!"Unknown class {c}")
    | some info =>
      match dget info.methods m with
      | none => dispatch_walk ct cc f m args info.parent objType st
      | some (params, retType) =>
        if params.length ≠ args.length then
          let np := params.length
          let na := args.length
          (.ok "Object",
            addErr st s!"Method {m} expects {np} arguments but got {na}")
        else
          match check_args ct cc f m params args st with
          | (.error err, st') => (.error err, st')
          | (.ok false, st') => (.ok "Object", st')
          | (.ok true, st') =>
            (.ok (if retType = "SELF_TYPE" then objType else retType), st')

/-- Argument loop of check_dispatch (type_environment.py:320-327): check
each argument against its formal type, stopping at the first violation
(which appends its diagnostic and makes the dispatch yield Object). -/
def check_args (ct : ClassTable) (cc : String) :
    Nat → String → List (String × String) → List Expr → CheckSt →
      Except String Bool × CheckSt
  | 0, _, _, _, st => (.error "RecursionError", st)
  | _ + 1, _, [], _, st => (.ok true, st)
  | _ + 1, _, _ :: _, [], st => (.ok true, st)
  | f + 1, m, (_, pt) :: ps, a :: rest, st =>
    match get_expr_type ct cc f a st with
    | (.error err, st') => (.error err, st')
    | (.ok argType, st') =>
      if is_subtype ct cc argType pt then check_args ct cc f m ps rest st'
      else
        (.ok false,
          addErr st' s!"In call to {m}, argument of type {argType} where {pt} was expected")

/-- Binding loop of TypeChecker.check_let (type_environment.py:351-364):
process bindings left to right, extending self.local_vars; a failing
initializer appends its diagnostic and returns early — `.ok false` — with
the bindings added so far still in scope (the Python early `return` skips
the restore at line 366).  The malformed-binding arm of line 352 is
unreachable for ASTs built by nodes.py's Let, which normalizes every
binding to a (name, type, init) triple. -/
def let_loop (ct : ClassTable) (cc : String) :
    Nat → List (String × String × Option Expr) → CheckSt →
      Except String Bool × CheckSt
  | 0, _, st => (.error "RecursionError", st)
  | _ + 1, [], st => (.ok true, st)
  | f + 1, (name, tyName, init) :: rest, st =>
    match init with
    | none => let_loop ct cc f rest { st with locals := dset st.locals name tyName }
    | some ie =>
      match get_expr_type ct cc f ie st with
      | (.error err, st') => (.error err, st')
      | (.ok it, st') =>
        if ¬ is_subtype ct cc it tyName then
          (.ok false,
            addErr st' s!"Let initialization of {name} has type {it} but declares type {tyName}")
        else let_loop ct cc f rest { st' with locals := dset st'.locals name tyName }

/-- Block loop of get_expr_type (type_environment.py:256-260): check the
leading expressions for diagnostics only, return the last one's type. -/
def block_loop (ct : ClassTable) (cc : String) :
    Nat → List Expr → CheckSt → Except String String × CheckSt
  | 0, _, st => (.error "RecursionError", st)
  | _ + 1, [], st => (.error "IndexError: list index out of range", st)
  | f + 1, [last], st => get_expr_type ct cc f last st
  | f + 1, e :: rest, st =>
    match get_expr_type ct cc f e st with
    | (.error err, st') => (.error err, st')
    | (.ok _, st') => block_loop ct cc f rest st'

/-- Branch loop of TypeChecker.check_case (type_environment.py:377-388):
reject a duplicate declared branch type (`.ok none`, the early
return-Object path), otherwise type each branch body with the branch
variable bound in an independent scope and collect the branch types. -/
def case_loop (ct : ClassTable) (cc : String) :
    Nat → List (String × String × Expr) → List String → CheckSt →
      Except String (Option (List String)) × CheckSt
  | 0, _, _, st => (.error "RecursionError", st)
  | _ + 1, [], _, st => (.ok (some []), st)
  | f + 1, (bname, btype, bexpr) :: rest, seen, st =>
    if btype ∈ seen then
      (.ok none, addErr st s!"Duplicate branch type {btype} in case expression")
    else
      let old := st.locals
      match get_expr_type ct cc f bexpr { st with locals := dset st.locals bname btype } with
      | (.error err, st') => (.error err, st')
      | (.ok bt, st') =>
        match case_loop ct cc f rest (btype :: seen) { st' with locals := old } with
        | (.error err, st2) => (.error err, st2)
        | (.ok none, st2) => (.ok none, st2)
        | (.ok (some bts), st2) => (.ok (some (bt :: bts)), st2)

end

/-- TypeChecker.check_method (type_environment.py:190-209): reset
local_vars to the formals (a dict, so a repeated formal name overwrites),
type the body, accept SELF_TYPE against the current class, otherwise
require body ≤ declared; on violation append the diagnostic and return
False. -/
def check_method (ct : ClassTable) (cc : String) (f : Nat) (name : String)
    (formals : List Formal) (returnType : String) (body : Expr)
    (st : CheckSt) : Except String Bool × CheckSt :=
  let locals0 := formals.foldl (fun l fm => dset l fm.name fm.type) []
  match get_expr_type ct cc f body { st with locals := locals0 } with
  | (.error err, st') => (.error err, st')
  | (.ok bodyType, st') =>
    if returnType = "SELF_TYPE" ∧ (bodyType = cc ∨ bodyType = "SELF_TYPE") then
      (.ok true, st')
    else if ¬ is_subtype ct cc bodyType returnType then
      (.ok false,
        addErr st' s!"Method {name} in class {cc} has body of type {bodyType} but declares return type {returnType}")
    else (.ok true, st')

/-- TypeChecker.check_attribute (type_environment.py:211-221). -/
def check_attribute (ct : ClassTable) (cc : String) (f : Nat) (name : String)
    (attrType : String) (init : Option Expr) (st : CheckSt) :
    Except String Bool × CheckSt :=
  match init with
  | none => (.ok true, st)
  | some ie =>
    match get_expr_type ct cc f ie st with
    | (.error err, st') => (.error err, st')
    | (.ok it, st') =>
      if ¬ is_subtype ct cc it attrType then
        (.ok false,
          addErr st' s!"Attribute {name} initialization has type {it} but declares type {attrType}")
      else (.ok true, st')

/-- TypeChecker.check_class (type_environment.py:179-188): check the
features in order, returning False as soon as one fails. -/
def features_loop (ct : ClassTable) (cc : String) (f : Nat) :
    List Feature → CheckSt → Except String Bool × CheckSt
  | [], st => (.ok true, st)
  | feat :: rest, st =>
    let r :=
      match feat with
      | .method n frm rt b => check_method ct cc f n frm rt b st
      | .attribute n t i => check_attribute ct cc f n t i st
    match r with
    | (.error err, st') => (.error err, st')
    | (.ok false, st') => (.ok false, st')
    | (.ok true, st') => features_loop ct cc f rest st'

/-- The per-class loop of TypeChecker.check (type_environment.py:98-105):
set current_class, reset local_vars, check the class; a False check_class
aborts the whole run, an exception propagates to check's handler. -/
def classes_loop (ct : ClassTable) (f : Nat) :
    List CClass → List String → Except String Bool × List String
  | [], errors => (.ok true, errors)
  | c :: rest, errors =>
    match features_loop ct c.name f c.features ⟨[], errors⟩ with
    | (.error err, st') => (.error err, st'.errors)
    | (.ok false, st') => (.ok false, st'.errors)
    | (.ok true, st') => classes_loop ct f rest st'.errors

/-- First pass of TypeChecker.build_class_table
(type_environment.py:126-137): register each class name with its parent
(defaulting a falsy parent to "Object"), skipping duplicates with a
diagnostic. -/
def build_pass1 : List CClass → ClassTable → List String → ClassTable × List String
  | [], ct, errors => (ct, errors)
  | c :: rest, ct, errors =>
    if dmem ct c.name then
      build_pass1 rest ct (errors ++ [s!"Duplicate class definition: {c.name}"])
    else
      build_pass1 rest
        (dset ct c.name ⟨some (match c.parent with | none => "Object" | some p => p), [], []⟩)
        errors

/-- Feature collection of build_class_table's second pass
(type_environment.py:140-148) for one class's descriptor. -/
def add_features : List Feature → ClassInfo → ClassInfo
  | [], info => info
  | .method n frm rt _ :: rest, info =>
    add_features rest
      { info with methods := dset info.methods n (frm.map (fun fm => (fm.name, fm.type)), rt) }
  | .attribute n t _ :: rest, info =>
    add_features rest { info with attributes := dset info.attributes n t }

/-- Second pass of build_class_table (type_environment.py:139-148): add
every class node's methods and attributes to its table entry (for a
duplicate class name, the features merge into the first definition's
entry, which is what indexing the dict by name does). -/
def build_pass2 : List CClass → ClassTable → ClassTable
  | [], ct => ct
  | c :: rest, ct =>
    build_pass2 rest
      (match dget ct c.name with
       | none => ct
       | some info => dset ct c.name (add_features c.features info))

/-- TypeChecker.check (type_environment.py:77-122) for a parsed Program
(`self.ast` a Program object is always truthy, so the empty-AST branch of
line 79 models only a None AST and is omitted).  Returns the Python return
value paired with self.errors.  An exception raised during class checking
is caught at line 107: its message is appended and the run fails. -/
def tc_check (p : Program) (f : Nat) : Bool × List String :=
  let r1 := build_pass1 p.classes basic_types []
  let ct := build_pass2 p.classes r1.1
  let rcyc := check_inheritance_cycles ct
  let errors := r1.2 ++ rcyc.2
  if ¬ rcyc.1 then (false, errors)
  else
    match classes_loop ct f p.classes errors with
    | (.error err, errors') => (false, errors' ++ [err])
    | (.ok false, errors') => (false, errors')
    | (.ok true, errors') =>
      if ¬ dmem ct "Main" then (false, errors' ++ ["Program is missing Main class"])
      else
        match dget ct "Main" with
        | none => (false, errors')
        | some mainInfo =>
          if ¬ dmem mainInfo.methods "main" then
            (false, errors' ++ ["Main class is missing main method"])
          else (errors'.isEmpty, errors')

/-- A structurally sound two-class program: class A's method m declares Int
but its body is the String constant "s"; class B's method n declares Int
and its body is the undefined identifier y. -/
def progC1 : Program := ⟨[
  ⟨"A", none, [.method "m" [] "Int" (.strConst "s")]⟩,
  ⟨"B", none, [.method "n" [] "Int" (.ident "y")]⟩ ]⟩

/-- C1 (counterexample).  On progC1 — acyclic hierarchy, both classes
rooted at Object — a single run of check records the body-type diagnostic
for A.m and nothing else: class B is never checked, so its undefined
identifier y is not reported.  This falsifies the claim that after a
method body-type violation the checker still checks all remaining features
and classes and reports every static violation in one run. -/
theorem check_stops_after_first_violation :
    tc_check progC1 100 =
      (false, ["Method m in class A has body of type String but declares return type Int"]) ∧
    "Undefined identifier y" ∉ (tc_check progC1 100).2 := by
  refine ⟨rfl, ?_⟩
  decide

/-- C1 (amended claim theorem).  What the code does instead: a method whose
body type is not a subtype of its declared return type gets its diagnostic
recorded, but check_method returns False, and the per-class loop of check()
aborts at once: the classes after the failing one are never examined (the
run's result and diagnostics are those of the failing class alone). -/
theorem check_method_failure_aborts (ct : ClassTable) (f : Nat)
    (cc name returnType : String) (formals : List Formal) (body : Expr)
    (st st' : CheckSt) (bodyType : String) (c : CClass) (rest : List CClass)
    (errors : List String) (stf : CheckSt) :
    (get_expr_type ct cc f body
        { st with locals := formals.foldl (fun l fm => dset l fm.name fm.type) [] } =
        (.ok bodyType, st') →
      ¬ (returnType = "SELF_TYPE" ∧ (bodyType = cc ∨ bodyType = "SELF_TYPE")) →
      is_subtype ct cc bodyType returnType = false →
      check_method ct cc f name formals returnType body st =
        (.ok false,
          addErr st' s!"Method {name} in class {cc} has body of type {bodyType} but declares return type {returnType}")) ∧
    (features_loop ct c.name f c.features ⟨[], errors⟩ = (.ok false, stf) →
      classes_loop ct f (c :: rest) errors = (.ok false, stf.errors)) := by
  constructor
  · intro hbody hself hsub
    simp [check_method, hbody, hself, hsub]
  · intro hfeat
    simp [classes_loop, hfeat]

/-- Witness for the amended C1, instantiated on progC1's two classes: A.m's
failure yields False with the recorded diagnostic, and the class loop
starting at A never reaches B. -/
theorem check_method_failure_aborts_witness :
    check_method basic_types "A" 99 "m" [] "Int" (.strConst "s") ⟨[], []⟩ =
      (.ok false,
        ⟨[], ["Method m in class A has body of type String but declares return type Int"]⟩) ∧
    classes_loop (build_pass2 progC1.classes (build_pass1 progC1.classes basic_types []).1)
        99 progC1.classes [] =
      (.ok false, ["Method m in class A has body of type String but declares return type Int"]) := by
  constructor
  · exact (check_method_failure_aborts basic_types 99 "A" "m" "Int" [] (.strConst "s")
      ⟨[], []⟩ ⟨[], []⟩ "String" ⟨"A", none, []⟩ [] [] ⟨[], []⟩).1 rfl
      (by intro h; exact absurd h.1 (by decide)) rfl
  · exact (check_method_failure_aborts
      (build_pass2 progC1.classes (build_pass1 progC1.classes basic_types []).1) 99
      "A" "m" "Int" [] (.strConst "s") ⟨[], []⟩ ⟨[], []⟩ "String"
      ⟨"A", none, [.method "m" [] "Int" (.strConst "s")]⟩
      [⟨"B", none, [.method "n" [] "Int" (.ident "y")]⟩] [] 
      ⟨[], ["Method m in class A has body of type String but declares return type Int"]⟩).2 rfl

/-- The class table in which class A declares attribute x : Int and class B
inherits A (both reachable from the seeded basics). -/
def ctC2 : ClassTable := basic_types ++
  [("A", ⟨some "Object", [("x", "Int")], []⟩), ("B", ⟨some "A", [], []⟩)]

/-- C2 (counterexample).  With current class B — whose ancestor A declares
the attribute x : Int — and an empty local scope, type-checking the
identifier x yields an "Undefined identifier" diagnostic and Object: the
checker consults only B's own attribute dict and performs no parent-chain
walk, falsifying the claim that inherited attributes are resolved. -/
theorem ident_inherited_attribute_not_found :
    dget ctC2 "B" = some ⟨some "A", [], []⟩ ∧
    (dget ctC2 "A").map ClassInfo.attributes = some [("x", "Int")] ∧
    get_expr_type ctC2 "B" 10 (.ident "x") ⟨[], []⟩ =
      (.ok "Object", ⟨[], ["Undefined identifier x"]⟩) := by
  exact ⟨rfl, rfl, rfl⟩

/-- C2 (amended claim theorem).  The identifier rule the code implements:
the local scope first; otherwise the current class's own attribute dict
only (attributes of ancestor classes are not consulted — there is no
parent-chain walk); otherwise the "undefined identifier" diagnostic is
recorded and the root type Object is returned so checking continues. -/
theorem get_expr_type_ident_rule (ct : ClassTable) (cc name : String)
    (st : CheckSt) (f : Nat) :
    (∀ t, dget st.locals name = some t →
      get_expr_type ct cc (f + 1) (.ident name) st = (.ok t, st)) ∧
    (∀ info t, dget st.locals name = none → dget ct cc = some info →
      dget info.attributes name = some t →
      get_expr_type ct cc (f + 1) (.ident name) st = (.ok t, st)) ∧
    (∀ info, dget st.locals name = none → dget ct cc = some info →
      dget info.attributes name = none →
      get_expr_type ct cc (f + 1) (.ident name) st =
        (.ok "Object", addErr st s!"Undefined identifier {name}")) := by
  refine ⟨?_, ?_, ?_⟩
  · intro t hl
    simp [get_expr_type, hl]
  · intro info t hl hcc hattr
    simp [get_expr_type, hl, hcc, hattr]
  · intro info hl hcc hattr
    simp [get_expr_type, hl, hcc, hattr]

/-- Witness for the amended C2: inside class A itself the own-attribute
lookup succeeds; inside class A an unknown name records the diagnostic. -/
theorem get_expr_type_ident_rule_witness :
    get_expr_type ctC2 "A" 6 (.ident "x") ⟨[], []⟩ = (.ok "Int", ⟨[], []⟩) ∧
    get_expr_type ctC2 "A" 6 (.ident "z") ⟨[], []⟩ =
      (.ok "Object", ⟨[], ["Undefined identifier z"]⟩) := by
  constructor
  · exact (get_expr_type_ident_rule ctC2 "A" "x" ⟨[], []⟩ 5).2.1
      ⟨some "Object", [("x", "Int")], []⟩ "Int" rfl rfl rfl
  · exact (get_expr_type_ident_rule ctC2 "A" "z" ⟨[], []⟩ 5).2.2
      ⟨some "Object", [("x", "Int")], []⟩ rfl rfl rfl

/-- A let with two bindings whose second initializer violates its declared
type: let x : Int <- 1, y : Int <- "s" in 0. -/
def letBad : Expr :=
  .letE [("x", "Int", some (.intConst 1)), ("y", "Int", some (.strConst "s"))]
    (.intConst 0)

/-- C9 (counterexample).  Checking letBad from an empty local scope returns
early on y's failing initializer, and the returned state still holds the
binding x : Int added before the failure: the local scope is NOT identical
to the scope before the call on that return path, falsifying the claim
that the scope is restored on every return path. -/
theorem check_let_error_path_leaks_scope :
    get_expr_type basic_types "Main" 10 letBad ⟨[], []⟩ =
      (.ok "Object",
        ⟨[("x", "Int")], ["Let initialization of y has type String but declares type Int"]⟩) ∧
    ([("x", "Int")] : List (String × String)) ≠ [] := by
  exact ⟨rfl, by decide⟩

/-- C9 (amended claim theorem).  What check_let does: on the path where
every binding initializer satisfies its declared type and the body checks,
the local scope is restored to its value before the call; on the early
return path where some initializer violates its declared type, check_let
returns Object immediately and the scope is NOT restored — the bindings
added before the failure stay in local_vars. -/
theorem check_let_scope (ct : ClassTable) (cc : String) (f : Nat)
    (bindings : List (String × String × Option Expr)) (body : Expr)
    (st st' st2 : CheckSt) (t : String) :
    (let_loop ct cc f bindings st = (.ok true, st') →
      get_expr_type ct cc f body st' = (.ok t, st2) →
      get_expr_type ct cc (f + 1) (.letE bindings body) st =
        (.ok t, { st2 with locals := st.locals })) ∧
    (let_loop ct cc f bindings st = (.ok false, st') →
      get_expr_type ct cc (f + 1) (.letE bindings body) st = (.ok "Object", st')) := by
  constructor
  · intro h1 h2
    simp [get_expr_type, h1, h2]
  · intro h1
    simp [get_expr_type, h1]

/-- Witness for the amended C9: a well-typed let restores the scope; the
failing letBad returns with the leaked binding. -/
theorem check_let_scope_witness :
    get_expr_type basic_types "Main" 6
        (.letE [("x", "Int", some (.intConst 1))] (.intConst 2)) ⟨[], []⟩ =
      (.ok "Int", ⟨[], []⟩) ∧
    get_expr_type basic_types "Main" 6 letBad ⟨[], []⟩ =
      (.ok "Object",
        ⟨[("x", "Int")], ["Let initialization of y has type String but declares type Int"]⟩) := by
  constructor
  · exact (check_let_scope basic_types "Main" 5 [("x", "Int", some (.intConst 1))]
      (.intConst 2) ⟨[], []⟩ ⟨[("x", "Int")], []⟩ ⟨[("x", "Int")], []⟩ "Int").1 rfl rfl
  · exact (check_let_scope basic_types "Main" 5
      [("x", "Int", some (.intConst 1)), ("y", "Int", some (.strConst "s"))]
      (.intConst 0) ⟨[], []⟩
      ⟨[("x", "Int")], ["Let initialization of y has type String but declares type Int"]⟩
      ⟨[], []⟩ "Object").2 rfl

/-- Runtime values of the evaluator.  Python's duck typing means an
attribute slot can hold an unevaluated AST node (stored by
COOLObject._init_attrs, evaluator.py:41, and never evaluated, the New arm
being dead code) — `rawExpr` — or the `None` object — `pynone` — the void
value of uninitialized attributes. -/
inductive Value where
  | int (n : Int)
  | bool (b : Bool)
  | str (s : String)
  | obj (oid : Nat)
  | pynone
  | rawExpr (e : Expr)
deriving Repr

/-- One Environment object (evaluator.py:1-20): its own vars dict and an
optional parent.  Frames live in the state's `envs` heap, indexed by
allocation order, so a parent index is always smaller than its child's —
the invariant that makes the chain walks below terminate. -/
structure Frame where
  vars : List (String × Value)
  parent : Option Nat
deriving Repr

/-- One COOLObject (evaluator.py:22-65): concrete class name and the
attribute dict. -/
structure Obj where
  className : String
  attrs : List (String × Value)
deriving Repr

/-- The evaluator's mutable world: the environment heap and the object
heap, both append-only allocated and mutated in place. -/
structure EvalSt where
  envs : List Frame
  objs : List Obj
deriving Repr

/-- Environment.set (evaluator.py:14-20): overwrite in the first frame of
the chain that already binds the name; otherwise walk outward and, at the
chain's outermost frame, create the binding there. -/
def env_set (st : EvalSt) (name : String) (v : Value) : Nat → Nat → EvalSt
  | 0, _ => st
  | f + 1, eid =>
    match st.envs.get? eid with
    | none => st
    | some fr =>
      if dmem fr.vars name then
        { st with envs := st.envs.set eid { fr with vars := dset fr.vars name v } }
      else
        match fr.parent with
        | some p => env_set st name v f p
        | none =>
          { st with envs := st.envs.set eid { fr with vars := dset fr.vars name v } }

/-- Environment.set at the fuel that the parent-index invariant makes
sufficient. -/
def envStore (st : EvalSt) (eid : Nat) (name : String) (v : Value) : EvalSt :=
  env_set st name v (eid + 1) eid

/-- Allocate a fresh Environment frame. -/
def allocFrame (st : EvalSt) (parent : Option Nat) : Nat × EvalSt :=
  (st.envs.length, { st with envs := st.envs ++ [⟨[], parent⟩] })

/-- Allocate a fresh COOLObject. -/
def allocObj (st : EvalSt) (ob : Obj) : Nat × EvalSt :=
  (st.objs.length, { st with objs := st.objs ++ [ob] })

/-- COOLObject._init_attrs (evaluator.py:30-41): parent attributes first
(indexing class_defs, so a parent name absent from the program's classes —
e.g. the parser's implicit "Object" — raises KeyError), then this class's
attributes, each slot holding the unevaluated initializer or None. -/
def init_attrs (defs : List (String × CClass)) : Nat → String →
    Except String (List (String × Value))
  | 0, _ => .error "RecursionError"
  | f + 1, cname =>
    match dget defs cname with
    | none => .error s!"KeyError: {cname}"
    | some cls =>
      let parentRes : Except String (List (String × Value)) :=
        match cls.parent with
        | some p => init_attrs defs f p
        | none => .ok []
      match parentRes with
      | .error e => .error e
      | .ok inherited =>
        .ok (cls.features.foldl
          (fun acc feat =>
            match feat with
            | .attribute n _ i =>
              dset acc n (match i with | some e => Value.rawExpr e | none => Value.pynone)
            | .method _ _ _ _ => acc)
          inherited)

/-- The name either feature kind carries (`hasattr(f, 'name')` holds for
Method and Attribute alike, evaluator.py:293). -/
def featName : Feature → String
  | .method n _ _ _ => n
  | .attribute n _ _ => n

/-- Bind zip(method.params, arg_vals) via env.set
(evaluator.py:104-105, 178-179): zip stops at the shorter list. -/
def bind_params (st : EvalSt) (eid : Nat) : List Formal → List Value → EvalSt
  | [], _ => st
  | _ :: _, [] => st
  | fm :: fs, v :: vs => bind_params (envStore st eid fm.name v) eid fs vs

/-- Evaluator.eval_expr (evaluator.py:108-239).  The function body begins
with `from cool_ast.nodes import IntegerConstant, BooleanConstant,
StringConstant`, `... BinaryOp, UnaryOp, Identifier, Conditional` and
`... Let, Dispatch, New, Loop, Case, Block, Branch, Assign, Self`
(lines 110-112).  nodes.py defines no class UnaryOp, so in CPython the
second of these statements raises ImportError on every single call,
before the expression is examined: every evaluation fails with
ImportError and no state change, and the entire per-construct isinstance
dispatch of lines 114-239 is dead code (behind it sit further latent
faults: BinaryOp has no `op` attribute, and StaticDispatch, Not, Negate
and IsVoid match no isinstance arm).  The CPython message quotes the
names; the quotes are omitted here.  The unused arguments keep the call
shape of the source. -/
def eval_expr (_defs : List (String × CClass)) (_e : Expr) (_eid : Nat)
    (st : EvalSt) : Except String Value × EvalSt :=
  (.error "ImportError: cannot import name UnaryOp from cool_ast.nodes", st)

/-- Evaluator.eval (evaluator.py:79-98): find Main and its feature named
main, build the Main object WITHOUT running its attribute initializers,
bind self — Environment.set walks to the global frame — then enter
eval_method (100-106), whose zip over (method.params, []) binds nothing
before it calls eval_expr on the body, where the failing UnaryOp import
ends the run.  These pre-eval_expr steps are the only live part of the
evaluator; their effects (the allocated Main object, the frames, the self
binding stored in the global frame) are visible in the returned state.
`class_defs` is built by Evaluator.__init__ (71-77); dict insertion keeps
the first position of a duplicated class name but the later value. -/
def evalProgram (p : Program) : Except String Value × EvalSt :=
  let defs := p.classes.foldl (fun acc c => dset acc c.name c) []
  let st0 : EvalSt := ⟨[⟨[], none⟩], []⟩
  match dget defs "Main" with
  | none => (.error "No Main class found", st0)
  | some mainCls =>
    match mainCls.features.find? (fun ft => featName ft == "main") with
    | none => (.error "No main method found in Main class", st0)
    | some mainFt =>
      match init_attrs defs (defs.length + 1) "Main" with
      | .error err => (.error err, st0)
      | .ok attrs =>
        let ao := allocObj st0 ⟨"Main", attrs⟩
        let al := allocFrame ao.2 (some 0)
        let st3 := envStore al.2 al.1 "self" (.obj ao.1)
        match mainFt with
        | .attribute _ _ _ =>
          (.error "AttributeError: Attribute object has no attribute params", st3)
        | .method _ formals _ mbody =>
          eval_expr defs mbody al.1 (bind_params st3 al.1 formals [])

/-- The entry program of claim C3: class Main whose main method's body is
the precedence-resolved AST 2 + 3 * 4 from the shared node types. -/
def progC3 : Program := ⟨[⟨"Main", none,
  [.method "main" [] "Int"
    (.binaryOp "+" (.intConst 2) (.binaryOp "*" (.intConst 3) (.intConst 4)))]⟩]⟩

/-- C3 (code bug).  Evaluating progC3 does not return 14: eval_expr's
first statements import the nonexistent UnaryOp from cool_ast.nodes, so
the run dies with ImportError before the addition is ever examined (and
behind that fault, nodes.py's BinaryOp stores `operator` while the dead
arithmetic arm would read the missing `expr.op`).  The repository's own
test (test_operational_semantics.test_simple_arithmetic) asserts the
result 14 on this very program, so the code contradicts its own tests and
the claim describes the intent. -/
theorem eval_arith_program_crashes :
    (evalProgram progC3).1 =
      .error "ImportError: cannot import name UnaryOp from cool_ast.nodes" := by
  rfl

/-- Class A with attribute x : Int <- 5 and a method m whose body reads x
from inside a let scope; Main dispatches m on a fresh A. -/
def progC4a : Program := ⟨[
  ⟨"A", none, [.attribute "x" "Int" (some (.intConst 5)),
    .method "m" [] "Int" (.letE [("y", "Int", some (.intConst 1))] (.ident "x"))]⟩,
  ⟨"Main", none, [.method "main" [] "Int" (.dispatch (some (.newE "A")) "m" [])]⟩]⟩

/-- Like progC4a but m reads x at the top level of its body. -/
def progC4b : Program := ⟨[
  ⟨"A", none, [.attribute "x" "Int" (some (.intConst 5)),
    .method "m" [] "Int" (.ident "x")]⟩,
  ⟨"Main", none, [.method "main" [] "Int" (.dispatch (some (.newE "A")) "m" [])]⟩]⟩

/-- C4 (counterexample).  In progC4b the method body is exactly the
identifier x, and x is a known attribute of the receiver (declared in
class A with initializer 5), so the claimed resolution rule — consult the
receiver's attribute table first exactly when the name is a known
attribute — would produce 5; the code instead dies with ImportError the
moment eval_expr is entered.  progC4a, the same read from inside a nested
let scope, dies identically: no Identifier occurrence anywhere in any
method body is ever resolved, through the attribute table or through the
lexical chain. -/
theorem ident_resolution_never_runs :
    (evalProgram progC4b).1 =
      .error "ImportError: cannot import name UnaryOp from cool_ast.nodes" ∧
    (evalProgram progC4a).1 =
      .error "ImportError: cannot import name UnaryOp from cool_ast.nodes" := by
  exact ⟨rfl, rfl⟩

/-- C4 (amended claim theorem).  What evaluation actually does with an
Identifier — as with every other expression: eval_expr raises ImportError
unconditionally, because its import of the nonexistent UnaryOp precedes
the isinstance dispatch, so the receiver-attribute-first resolution logic
of the Identifier arm (evaluator.py:124-134) is dead code that never
consults anything. -/
theorem eval_ident_import_error (defs : List (String × CClass)) (name : String)
    (eid : Nat) (st : EvalSt) (e : Expr) :
    eval_expr defs (.ident name) eid st =
      (.error "ImportError: cannot import name UnaryOp from cool_ast.nodes", st) ∧
    eval_expr defs e eid st =
      (.error "ImportError: cannot import name UnaryOp from cool_ast.nodes", st) := by
  exact ⟨rfl, rfl⟩

/-- C5 (counterexample).  A StaticDispatch node is not type-checked with a
rooted method lookup, nor evaluated by resolving the method from the named
ancestor: the checker records an "Unknown expression type" diagnostic and
yields Object (the falls-through arm of get_expr_type), and the evaluator
dies with ImportError before even looking at the node — it is rejected as
an unknown expression shape statically, and never examined dynamically,
the very opposite of what the claim asserts. -/
theorem static_dispatch_unknown_shape :
    get_expr_type ctC2 "A" 10 (.staticDispatch .selfE "Object" "copy" []) ⟨[], []⟩ =
      (.ok "Object", ⟨[], ["Unknown expression type: StaticDispatch"]⟩) ∧
    eval_expr [] (.staticDispatch .selfE "A" "copy" []) 0 ⟨[⟨[], none⟩], []⟩ =
      (.error "ImportError: cannot import name UnaryOp from cool_ast.nodes",
        ⟨[⟨[], none⟩], []⟩) := by
  exact ⟨rfl, rfl⟩

/-- C5 (amended claim theorem).  StaticDispatch derives from ASTNode, not
Dispatch, so the type checker falls through every isinstance arm, appends
the unknown-expression-type diagnostic and returns Object; and the
evaluator never reaches any isinstance dispatch at all — every eval_expr
call, on a StaticDispatch node as on any other, raises ImportError at the
function-entry import of the nonexistent UnaryOp.  No ancestor-rooted
method resolution happens in either consumer, for every receiver,
ancestor name, method name, argument list and state. -/
theorem static_dispatch_rejected (o : Expr) (t m : String) (args : List Expr)
    (ct : ClassTable) (cc : String) (st : CheckSt) (fc : Nat)
    (defs : List (String × CClass)) (eid : Nat) (est : EvalSt) :
    get_expr_type ct cc (fc + 1) (.staticDispatch o t m args) st =
      (.ok "Object", addErr st "Unknown expression type: StaticDispatch") ∧
    eval_expr defs (.staticDispatch o t m args) eid est =
      (.error "ImportError: cannot import name UnaryOp from cool_ast.nodes", est) := by
  exact ⟨rfl, rfl⟩

/-- The class-B-inherits-A case program of claim C6: Main's body is
case new B of a : A => 1; b : B => 2; esac, with A the program's root
class (no parent, as the AST data model allows for a root). -/
def progC6 : Program := ⟨[
  ⟨"A", none, []⟩, ⟨"B", some "A", []⟩,
  ⟨"Main", none, [.method "main" [] "Int"
    (.caseE (.newE "B") [("a", "A", .intConst 1), ("b", "B", .intConst 2)])]⟩]⟩

/-- A case whose single branch type B is not on the scrutinee's ancestor
chain [A]. -/
def progC6nm : Program := ⟨[
  ⟨"A", none, []⟩,
  ⟨"Main", none, [.method "main" [] "Int"
    (.caseE (.newE "A") [("b", "B", .intConst 1)])]⟩]⟩

/-- C6 (code bug).  The claimed behavior — `case new B of a : A => 1;
b : B => 2; esac` with B inheriting A selects the most specific branch
and evaluates to 2, and a case none of whose branch types is on the
chain is the fatal no-matching-branch error — is asserted by the spec and
by the repository's own test
(test_operational_semantics.test_case_expression, which asserts 2 on this
very program); the code instead dies with ImportError on entering
eval_expr, before any scrutinee evaluation, ancestor walk or branch
selection can happen: the Case arm (evaluator.py:203-216) is dead code
behind the failing UnaryOp import, the same fault recorded for C3. -/
theorem case_program_crashes :
    (evalProgram progC6).1 =
      .error "ImportError: cannot import name UnaryOp from cool_ast.nodes" ∧
    (evalProgram progC6nm).1 =
      .error "ImportError: cannot import name UnaryOp from cool_ast.nodes" := by
  exact ⟨rfl, rfl⟩

/-- The frame Environment.set will write to, starting from `eid`: the first
frame of the parent chain whose own vars already bind the name, else the
chain's outermost frame (the one with no parent); none only on a missing
frame or exhausted fuel. -/
def set_target (st : EvalSt) (name : String) : Nat → Nat → Option Nat
  | 0, _ => none
  | f + 1, eid =>
    match st.envs.get? eid with
    | none => none
    | some fr =>
      if dmem fr.vars name then some eid
      else
        match fr.parent with
        | none => some eid
        | some p => set_target st name f p

/-- Main program of claim C10's first half: main's body is
{ let z : Int <- 7 in 0; z; } — the shape on which the claim asserts the
let binding z is stored globally and persists after the let body. -/
def progC10a : Program := ⟨[⟨"Main", none, [.method "main" [] "Int"
  (.block [.letE [("z", "Int", some (.intConst 7))] (.intConst 0), .ident "z"])]⟩]⟩

/-- Main program of claim C10's second half: main's body is
{ let w : Int <- 1 in (let w : Int <- 2 in 0); w; } — the shape on which
the claim asserts the inner let overwrites the outer w. -/
def progC10b : Program := ⟨[⟨"Main", none, [.method "main" [] "Int"
  (.block [.letE [("w", "Int", some (.intConst 1))]
      (.letE [("w", "Int", some (.intConst 2))] (.intConst 0)),
    .ident "w"])]⟩]⟩

/-- C10 (counterexample).  The claim asserts that when the evaluator
processes the let binding of progC10a it stores z in the global
environment so that z persists after the let body finishes, and that
progC10b's inner let overwrites the outer w.  In fact the evaluator never
processes any let binding: both runs die with ImportError on entering
main's body, and progC10a's final environments hold no binding for z in
any frame — only the self binding that Evaluator.eval itself stored
before calling eval_expr. -/
theorem let_binding_never_stored :
    (evalProgram progC10a).1 =
      .error "ImportError: cannot import name UnaryOp from cool_ast.nodes" ∧
    (evalProgram progC10a).2.envs = [⟨[("self", .obj 0)], none⟩, ⟨[], some 0⟩] ∧
    (evalProgram progC10b).1 =
      .error "ImportError: cannot import name UnaryOp from cool_ast.nodes" := by
  exact ⟨rfl, rfl, rfl⟩

/-- C10 (amended claim theorem).  Environment.set writes to the first
frame of the parent chain that already binds the name — overwriting an
outer binding rather than shadowing it — and, when no frame of the chain
binds the name, creates the binding in the chain's outermost frame: the
characterization equation and its three case laws hold for every state,
name, value, fuel and start frame.  But the evaluator never processes a
let binding: the Let arm sits behind eval_expr's failing UnaryOp import,
so evaluating any let expression fails with ImportError.  The only live
Environment.set calls are Evaluator.eval's binding of self and
eval_method's parameter binds; on progC10a the self bind — issued against
the child frame 1 — demonstrably lands in the outermost global frame 0,
exhibiting the outermost-store mechanism on the one path that runs. -/
theorem env_set_outermost_and_overwrite :
    (∀ (st : EvalSt) (name : String) (v : Value) (f eid : Nat),
      env_set st name v f eid =
        match set_target st name f eid with
        | none => st
        | some t =>
          match st.envs.get? t with
          | none => st
          | some fr =>
            { st with envs := st.envs.set t { fr with vars := dset fr.vars name v } }) ∧
    (∀ (st : EvalSt) (name : String) (f eid : Nat) (fr : Frame),
      st.envs[eid]? = some fr → dmem fr.vars name = false → fr.parent = none →
      set_target st name (f + 1) eid = some eid) ∧
    (∀ (st : EvalSt) (name : String) (f eid : Nat) (fr : Frame),
      st.envs[eid]? = some fr → dmem fr.vars name = true →
      set_target st name (f + 1) eid = some eid) ∧
    (∀ (st : EvalSt) (name : String) (f eid p : Nat) (fr : Frame),
      st.envs[eid]? = some fr → dmem fr.vars name = false → fr.parent = some p →
      set_target st name (f + 1) eid = set_target st name f p) ∧
    (∀ (defs : List (String × CClass))
      (bindings : List (String × String × Option Expr)) (body : Expr)
      (eid : Nat) (st : EvalSt),
      eval_expr defs (.letE bindings body) eid st =
        (.error "ImportError: cannot import name UnaryOp from cool_ast.nodes", st)) ∧
    (evalProgram progC10a).2.envs.get? 0 = some ⟨[("self", .obj 0)], none⟩ ∧
    (evalProgram progC10a).1 =
      .error "ImportError: cannot import name UnaryOp from cool_ast.nodes" := by
  refine ⟨?_, ?_, ?_, ?_, fun _ _ _ _ _ => rfl, rfl, rfl⟩
  · intro st name v f
    induction f with
    | zero => intro eid; rfl
    | succ f ih =>
      intro eid
      simp only [env_set, set_target, List.get?_eq_getElem?]
      cases hfr : st.envs[eid]? with
      | none => rfl
      | some fr =>
        by_cases hm : dmem fr.vars name
        · simp [List.get?_eq_getElem?, hm, hfr]
        · simp only [hm, Bool.false_eq_true, if_false]
          cases hp : fr.parent with
          | none => simp [List.get?_eq_getElem?, hfr, hp]
          | some p => simpa [List.get?_eq_getElem?] using ih p
  · intro st name f eid fr h1 h2 h3
    simp [set_target, h1, h2, h3]
  · intro st name f eid fr h1 h2
    simp [set_target, h1, h2]
  · intro st name f eid p fr h1 h2 h3
    simp [set_target, h1, h2, h3]

/-- Witness for C10's quantified parts: the characterization and the
set_target cases at a concrete two-frame chain in which the child binds
nothing and the root binds w — the write overwrites the root's w. -/
theorem env_set_outermost_and_overwrite_witness :
    env_set ⟨[⟨[("w", .int 1)], none⟩, ⟨[], some 0⟩], []⟩ "w" (.int 2) 2 1 =
      ⟨[⟨[("w", .int 2)], none⟩, ⟨[], some 0⟩], []⟩ ∧
    set_target (⟨[⟨[("w", .int 1)], none⟩, ⟨[], some 0⟩], []⟩ : EvalSt) "w" 2 1 =
      some 0 ∧
    set_target (⟨[⟨[("w", .int 1)], none⟩, ⟨[], some 0⟩], []⟩ : EvalSt) "w" 1 0 =
      some 0 := by
  refine ⟨?_, ?_, ?_⟩
  · exact env_set_outermost_and_overwrite.1
      ⟨[⟨[("w", .int 1)], none⟩, ⟨[], some 0⟩], []⟩ "w" (.int 2) 2 1
  · exact (env_set_outermost_and_overwrite.2.2.2.1
      ⟨[⟨[("w", .int 1)], none⟩, ⟨[], some 0⟩], []⟩ "w" 1 1 0 ⟨[], some 0⟩
      rfl rfl rfl).trans
      ((env_set_outermost_and_overwrite.2.2.1
        ⟨[⟨[("w", .int 1)], none⟩, ⟨[], some 0⟩], []⟩ "w" 0 0
        ⟨[("w", .int 1)], none⟩ rfl rfl))
  · exact env_set_outermost_and_overwrite.2.2.1
      ⟨[⟨[("w", .int 1)], none⟩, ⟨[], some 0⟩], []⟩ "w" 0 0
      ⟨[("w", .int 1)], none⟩ rfl rfl
